import Mathlib

/-!
Verification of the watermark repository (src/src/main.py) against its
natural-language specification.  The Python program stamps a rotated text
watermark onto every page of an input PDF, producing one output file per
recipient name.  We give a shallow embedding of the program: paths, a file
system, dates, the reportlab canvas state and the PyPDF2 page-merge
pipeline, and prove the specified properties about it.
-/

namespace Watermark

/-- A filesystem path, as used by `pathlib.Path`: `dir` is the list of parent
components and `name` the final component.  `Path.parent / n` is then the
path with the same `dir` and final component `n`. -/
structure Path where
  dir : List String
  name : String
deriving DecidableEq

/-- Index of the last occurrence of `c` in the list, as Python `str.rfind`
(restricted to a found result); `none` when `c` does not occur. -/
def rfindIdx (c : Char) : List Char → Option Nat
  | [] => none
  | a :: rest =>
    match rfindIdx c rest with
    | some i => some (i + 1)
    | none => if a = c then some 0 else none

/-- `PurePath.stem` from CPython's pathlib: the final component without its
last extension.  CPython computes `i = name.rfind('.')` and returns
`name[:i]` when `0 < i < len(name) - 1`, else the whole name. -/
def stemChars (cs : List Char) : List Char :=
  match rfindIdx '.' cs with
  | some i => if 0 < i ∧ i < cs.length - 1 then cs.take i else cs
  | none => cs

/-- `Path.stem`: the final path component minus its last extension. -/
def Path.stem (p : Path) : String :=
  String.mk (stemChars p.name.toList)

/-- A calendar date, standing for the host clock reading
(`datetime.now()`). -/
structure Date where
  month : Nat
  day : Nat
  year : Nat
deriving DecidableEq

/-- Zero-pad a number to two digits, as `strftime` does for `%m` and `%d`. -/
def pad2 (n : Nat) : String :=
  if n < 10 then "0" ++ toString n else toString n

/-- `get_date` from main.py: `datetime.now().strftime("%m-%d-%Y")`.  The
clock reading is passed explicitly as `d`. -/
def get_date (d : Date) : String :=
  pad2 d.month ++ "-" ++ pad2 d.day ++ "-" ++ toString d.year

/-- Python `person.replace(' ', '_')`: every space becomes an underscore. -/
def underscoreSpaces (s : String) : String :=
  String.mk (s.toList.map fun c => if c = ' ' then '_' else c)

/-- `combine_output_name_and_person` from main.py:
`output_path.parent / (stem + "_" + person.replace(' ', '_') + "_" + get_date() + ".pdf")`. -/
def combine_output_name_and_person (d : Date) (output_path : Path) (person : String) : Path :=
  ⟨output_path.dir,
    output_path.stem ++ "_" ++ underscoreSpaces person ++ "_" ++ get_date d ++ ".pdf"⟩

/-- The filename rule as the specification words it:
`{outputPath.parent}/{outputPath.stem}_{person with spaces replaced by underscores}_{MM-DD-YYYY}.pdf`. -/
def specFilename (d : Date) (output_path : Path) (person : String) : Path :=
  ⟨output_path.dir,
    output_path.stem ++ "_" ++ underscoreSpaces person ++ "_" ++ get_date d ++ ".pdf"⟩

/-! ## Overlay generator: style, canvas and `create_pdf` -/

/-- Paragraph alignment (`reportlab.lib.enums`); `get_style` uses
`TA_CENTER`. -/
inductive Alignment where
  | left
  | center
  | right
  | justify
deriving DecidableEq

/-- An RGBA colour; main.py uses `(0, 0, 0, 0.5)`. -/
abbrev Color := ℚ × ℚ × ℚ × ℚ

/-- The fields of a reportlab `ParagraphStyle` that main.py touches. -/
structure ParagraphStyle where
  fontName : String
  fontSize : ℚ
  alignment : Alignment
  textColor : Color
deriving DecidableEq

/-- `inch` from `reportlab.lib.pagesizes`: 72 points. -/
def inch : ℚ := 72

/-- US-Letter page size in points (8.5in × 11in). -/
def letter : ℚ × ℚ := (612, 792)

/-- `_TILT_DEGREES = 30` from main.py. -/
def _TILT_DEGREES : Int := 30

/-- `get_style` from main.py: take the sample stylesheet's `Normal` style
(`getSampleStyleSheet` builds a fresh stylesheet on every call) and set
`fontSize := 14`, `fontName := "Helvetica"`, `alignment := TA_CENTER`,
`textColor := (0, 0, 0, 0.5)`.  All four fields main.py reads are set here,
so the returned style is this fixed value on every call. -/
def get_style : ParagraphStyle :=
  { fontName := "Helvetica"
    fontSize := 14
    alignment := .center
    textColor := (0, 0, 0, 1/2) }

/-- One element of a PDF page's content stream.  `par` is a paragraph drawn
by `write_paragraph` (text, anchor, canvas rotation at draw time, wrap box,
and the style it was drawn with); `raw` stands for arbitrary pre-existing
content of a source page. -/
inductive ContentItem where
  | par (text : String) (x y : ℚ) (rot : Int) (box : ℚ × ℚ) (style : ParagraphStyle)
  | raw (data : String)
deriving DecidableEq

/-- The font size a content item is drawn with (`none` for raw content). -/
def itemFontSize : ContentItem → Option ℚ
  | .par _ _ _ _ _ st => some st.fontSize
  | .raw _ => none

/-- The state of a reportlab `canvas.Canvas`: its page size, the current
cumulative rotation of the coordinate system (`canvas.rotate` adds to it),
and the content drawn so far, in order. -/
structure CanvasState where
  pagesize : ℚ × ℚ
  rot : Int
  items : List ContentItem
deriving DecidableEq

/-- `canvas.Canvas(packet, pagesize=letter)`: fresh canvas, no rotation,
nothing drawn. -/
def Canvas.init : CanvasState :=
  ⟨letter, 0, []⟩

/-- `canvas.rotate(theta)`: rotates the coordinate system; the effect is
cumulative. -/
def CanvasState.rotate (c : CanvasState) (theta : Int) : CanvasState :=
  { c with rot := c.rot + theta }

/-- `paragraph.drawOn(canvas, x, y)`: appends the paragraph to the canvas's
content, recorded together with the rotation in force at draw time. -/
def CanvasState.drawOn (c : CanvasState) (text : String) (st : ParagraphStyle)
    (box : ℚ × ℚ) (x y : ℚ) : CanvasState :=
  { c with items := c.items ++ [.par text x y c.rot box st] }

/-- `write_paragraph` from main.py: obtain the style via `get_style()`,
override its font size when `font_size` is given, build the paragraph, wrap
it to a 4in × 4in box, rotate the canvas by `_TILT_DEGREES`, draw the
paragraph at `(x, y)`, and rotate the canvas back by `-_TILT_DEGREES`. -/
def write_paragraph (c : CanvasState) (text : String) (x y : ℚ)
    (font_size : Option ℚ) : CanvasState :=
  let style := get_style
  let style := match font_size with
    | some fs => { style with fontSize := fs }
    | none => style
  let c := c.rotate _TILT_DEGREES
  let c := c.drawOn text style (inch * 4, inch * 4) x y
  c.rotate (-_TILT_DEGREES)

/-- A single PDF page: its media-box size and its content stream. -/
structure Page where
  size : ℚ × ℚ
  content : List ContentItem
deriving DecidableEq

/-- Modelled from the spec: the prefix watermark phrase, loaded at startup
from `prefix.txt`; the file itself is not under src/, and only that it is a
fixed constant string matters here. -/
def prefixText : String := "This document is provided to"

/-- Modelled from the spec: the suffix watermark phrase, loaded at startup
from `suffix.txt`; the file itself is not under src/, and only that it is a
fixed constant string matters here. -/
def suffixText : String := "Please do not redistribute."

/-- `create_pdf` from main.py: read the date, open a letter-sized canvas,
draw the prefix, the person, the date and the suffix at the fixed anchors
(none of the four calls passes a font-size override), save, and return the
rendered single page. -/
def create_pdf (d : Date) (person : String) : Page :=
  let current_date := get_date d
  let can := Canvas.init
  let X_VAL := inch * (9/2)
  let MAX_Y := inch * (15/2)
  let can := write_paragraph can prefixText X_VAL (MAX_Y - (3/2) * inch) none
  let can := write_paragraph can person X_VAL (MAX_Y - 4 * inch) none
  let can := write_paragraph can current_date X_VAL (MAX_Y - (21/5) * inch) none
  let can := write_paragraph can suffixText X_VAL 0 none
  ⟨can.pagesize, can.items⟩

/-! ## Page compositor: documents, filesystem and `watermark_pdf` -/

/-- A PDF document: an ordered sequence of pages (`PdfFileReader.pages`,
and what `PdfFileWriter.write` serializes). -/
structure PdfFile where
  pages : List Page
deriving DecidableEq

/-- A file on disk: either a PDF document or a plain text file (name lists,
and anything that is not a parsable PDF). -/
inductive File where
  | pdf (f : PdfFile)
  | text (s : String)
deriving DecidableEq

/-- The filesystem: an association list from paths to files; a write
prepends, a read takes the most recent entry. -/
abbrev FS := List (Path × File)

/-- Look a path up in the filesystem (`open` for reading; `none` means the
path does not exist). -/
def fsRead : FS → Path → Option File
  | [], _ => none
  | (q, f) :: rest, p => if q = p then some f else fsRead rest p

/-- `path.open("wb")` followed by a full write: create or overwrite the
file at `p`. -/
def fsWrite (fs : FS) (p : Path) (f : File) : FS :=
  (p, f) :: fs

/-- `PdfFileReader` on a file's bytes: succeeds exactly when the file is a
PDF document. -/
def parsePdf : File → Option PdfFile
  | .pdf f => some f
  | .text _ => none

/-- `page.mergePage(watermark)` from PyPDF2: combine the two content
streams onto `page`; the page keeps its own size and its existing content,
with the watermark's content merged in after it. -/
def mergePage (page : Page) (watermark : Page) : Page :=
  ⟨page.size, page.content ++ watermark.content⟩

/-- Errors the program can raise: `FileNotFoundError` from opening a
missing path, a PyPDF2 read error on a non-PDF input, and the
`ValueError("No names provided.")` at the end of `main`. -/
inductive Err where
  | fileNotFound
  | readError
  | noNames
deriving DecidableEq

/-- Observable steps of one `watermark_pdf` call, in the order the code
performs them: materializing the source page list, the (single) call to
`create_pdf`, each `mergePage`/`addPage` of a source page, and opening the
output file for writing. -/
inductive Event where
  | readPages (n : Nat)
  | createOverlay (person : String)
  | mergedPage (idx : Nat)
  | openOutput (p : Path)
deriving DecidableEq

/-- Whether an event is a `create_pdf` call. -/
def Event.isCreateOverlay : Event → Bool
  | .createOverlay _ => true
  | _ => false

/-- The outcome of a run: the resulting filesystem, the error that aborted
it (if any), and the trace of observable steps performed. -/
structure RunResult where
  fs : FS
  err : Option Err
  events : List Event
deriving DecidableEq

/-- `watermark_pdf` from main.py: open `input_path` for binary read, read
all its pages into `input_pages`, call `create_pdf(person)` once, merge the
watermark onto every page in order, adding each to the writer, then open
`output_path` for binary write and serialize the writer's pages to it.
A failure to open or parse the input aborts before the output is opened. -/
def watermark_pdf (d : Date) (fs : FS) (input_path : Path) (person : String)
    (output_path : Path) : RunResult :=
  match fsRead fs input_path with
  | none => ⟨fs, some .fileNotFound, []⟩
  | some file =>
    match parsePdf file with
    | none => ⟨fs, some .readError, []⟩
    | some pdf =>
      let input_pages := pdf.pages
      let watermark := create_pdf d person
      let merged := input_pages.map fun page => mergePage page watermark
      ⟨fsWrite fs output_path (.pdf ⟨merged⟩), none,
        [.readPages input_pages.length, .createOverlay person]
          ++ (List.range input_pages.length).map Event.mergedPage
          ++ [.openOutput output_path]⟩

/-! ## CLI orchestration: `main` -/

/-- The parsed CLI arguments (`get_args`): positional `input` and `output`
paths, optional `--names` list and optional `--name-file` path. -/
structure Args where
  input : Path
  output : Path
  names : Option (List String)
  name_file : Option Path
deriving DecidableEq

/-- Python `str.splitlines` restricted to the terminators `\n`, `\r\n` and
`\r`: split at each terminator, terminators not kept, no trailing empty
line when the string ends with a terminator. -/
def splitlinesAux : List Char → List Char → List String
  | [], acc => if acc.isEmpty then [] else [String.mk acc.reverse]
  | '\r' :: '\n' :: rest, acc => String.mk acc.reverse :: splitlinesAux rest []
  | '\n' :: rest, acc => String.mk acc.reverse :: splitlinesAux rest []
  | '\r' :: rest, acc => String.mk acc.reverse :: splitlinesAux rest []
  | c :: rest, acc => splitlinesAux rest (c :: acc)

/-- `f.read().splitlines()` on the name file's contents. -/
def splitlines (s : String) : List String :=
  splitlinesAux s.toList []

/-- The per-recipient loop in `main`: for each person in order, derive the
output path with `combine_output_name_and_person` and run `watermark_pdf`;
an exception aborts the whole run (no per-recipient isolation). -/
def runPeople (d : Date) (input output : Path) : FS → List String → RunResult
  | fs, [] => ⟨fs, none, []⟩
  | fs, person :: rest =>
    let output_file := combine_output_name_and_person d output person
    let r := watermark_pdf d fs input person output_file
    match r.err with
    | some e => ⟨r.fs, some e, r.events⟩
    | none =>
      let r2 := runPeople d input output r.fs rest
      ⟨r2.fs, r2.err, r.events ++ r2.events⟩

/-- `main` from main.py: raise `FileNotFoundError` when `args.input` does
not exist; otherwise, when `--names` was given, process those names; else,
when `--name-file` was given, read it, split it into lines and process
those; else raise `ValueError("No names provided.")`. -/
def main (d : Date) (fs : FS) (args : Args) : RunResult :=
  match fsRead fs args.input with
  | none => ⟨fs, some .fileNotFound, []⟩
  | some _ =>
    match args.names with
    | some people => runPeople d args.input args.output fs people
    | none =>
      match args.name_file with
      | some nf =>
        match fsRead fs nf with
        | none => ⟨fs, some .fileNotFound, []⟩
        | some (.pdf _) => ⟨fs, some .readError, []⟩
        | some (.text s) => runPeople d args.input args.output fs (splitlines s)
      | none => ⟨fs, some .noNames, []⟩

/-! ## Concrete fixtures used by the witness theorems -/

/-- A concrete source page with arbitrary pre-existing content. -/
def samplePage1 : Page := ⟨letter, [.raw "page one"]⟩

/-- A second concrete source page. -/
def samplePage2 : Page := ⟨letter, [.raw "page two"]⟩

/-- A concrete two-page source document. -/
def sampleDoc : PdfFile := ⟨[samplePage1, samplePage2]⟩

/-- A concrete input path. -/
def inputPath : Path := ⟨[], "report.pdf"⟩

/-- A concrete output base path. -/
def outBase : Path := ⟨[], "out.pdf"⟩

/-- A concrete name-file path. -/
def nfPath : Path := ⟨[], "names.txt"⟩

/-- A concrete clock reading, 2024-01-15. -/
def sampleDate : Date := ⟨1, 15, 2024⟩

/-- A filesystem holding only the two-page source document. -/
def sampleFS : FS := [(inputPath, .pdf sampleDoc)]

/-- A filesystem holding the source document and a name file containing
two names. -/
def sampleFS2 : FS := [(inputPath, .pdf sampleDoc), (nfPath, .text "Alice\nBob\n")]

/-! ## Helper lemmas -/

theorem fsRead_fsWrite_self (fs : FS) (p : Path) (f : File) :
    fsRead (fsWrite fs p f) p = some f := by
  simp [fsRead, fsWrite]

/-- Characterization of a successful `watermark_pdf` call: the input parses
to `f`, so the output file is written with every page merged with the one
overlay, and the trace records read, overlay creation, the per-page merges
and the output open, in that order. -/
theorem watermark_pdf_ok (d : Date) (fs : FS) (input out : Path) (person : String)
    (f : PdfFile) (h : fsRead fs input = some (.pdf f)) :
    watermark_pdf d fs input person out =
      ⟨fsWrite fs out (.pdf ⟨f.pages.map fun pg => mergePage pg (create_pdf d person)⟩),
        none,
        [.readPages f.pages.length, .createOverlay person]
          ++ (List.range f.pages.length).map Event.mergedPage
          ++ [.openOutput out]⟩ := by
  simp [watermark_pdf, h, parsePdf]

/-! ## Claim theorems -/

/-- C1: for every input document with N pages, `watermark_pdf` writes an
output document with exactly N pages, the merged pages appearing in the
original source order. -/
theorem page_count_preserved (d : Date) (fs : FS) (input out : Path) (person : String)
    (f : PdfFile) (h : fsRead fs input = some (.pdf f)) :
    fsRead (watermark_pdf d fs input person out).fs out =
      some (.pdf ⟨f.pages.map fun pg => mergePage pg (create_pdf d person)⟩) ∧
    (f.pages.map fun pg => mergePage pg (create_pdf d person)).length = f.pages.length := by
  rw [watermark_pdf_ok d fs input out person f h]
  exact ⟨fsRead_fsWrite_self fs out _, by simp⟩

/-- Witness for C1: on a concrete two-page document the output file holds
exactly the two source pages, in order, each merged with the overlay. -/
theorem page_count_preserved_witness :
    fsRead (watermark_pdf sampleDate sampleFS inputPath "Jane Doe" outBase).fs outBase =
      some (.pdf ⟨sampleDoc.pages.map fun pg =>
        mergePage pg (create_pdf sampleDate "Jane Doe")⟩) ∧
    (sampleDoc.pages.map fun pg =>
      mergePage pg (create_pdf sampleDate "Jane Doe")).length = sampleDoc.pages.length :=
  page_count_preserved sampleDate sampleFS inputPath outBase "Jane Doe" sampleDoc rfl

/-- C2: `combine_output_name_and_person` returns
`{parent}/{stem}_{person with spaces underscored}_{MM-DD-YYYY}.pdf`, the
`.pdf` extension appended regardless of the output path's original suffix
(paths with the same parent and stem give the same result), deterministic
in `(date, path, person)` alone. -/
theorem filename_derivation (d : Date) (p : Path) (person : String) :
    combine_output_name_and_person d p person = specFilename d p person ∧
    ∀ q : Path, q.dir = p.dir → q.stem = p.stem →
      combine_output_name_and_person d q person = combine_output_name_and_person d p person := by
  refine ⟨rfl, fun q hdir hstem => ?_⟩
  simp [combine_output_name_and_person, hdir, hstem]

/-- Witness for C2: `out.txt` and `out.pdf` share parent and stem, so both
derive the same `out_Jane_Doe_01-15-2024.pdf`, and the rule matches the
spec formula. -/
theorem filename_derivation_witness :
    combine_output_name_and_person sampleDate outBase "Jane Doe" =
      specFilename sampleDate outBase "Jane Doe" ∧
    combine_output_name_and_person sampleDate ⟨[], "out.txt"⟩ "Jane Doe" =
      combine_output_name_and_person sampleDate outBase "Jane Doe" :=
  ⟨(filename_derivation sampleDate outBase "Jane Doe").1,
    (filename_derivation sampleDate outBase "Jane Doe").2 ⟨[], "out.txt"⟩ rfl rfl⟩

/-- C3: within one `watermark_pdf` call the trace holds exactly one
`create_pdf` call, and every output page is the corresponding source page
merged with that single overlay. -/
theorem overlay_once_per_call (d : Date) (fs : FS) (input out : Path) (person : String)
    (f : PdfFile) (h : fsRead fs input = some (.pdf f)) :
    (watermark_pdf d fs input person out).events.filter Event.isCreateOverlay =
      [.createOverlay person] ∧
    fsRead (watermark_pdf d fs input person out).fs out =
      some (.pdf ⟨f.pages.map fun pg => mergePage pg (create_pdf d person)⟩) := by
  rw [watermark_pdf_ok d fs input out person f h]
  refine ⟨?_, fsRead_fsWrite_self fs out _⟩
  simp [Event.isCreateOverlay, List.filter_map, Function.comp]

/-- Witness for C3: on the concrete two-page document the trace holds the
single overlay creation for "Jane Doe". -/
theorem overlay_once_per_call_witness :
    (watermark_pdf sampleDate sampleFS inputPath "Jane Doe" outBase).events.filter
        Event.isCreateOverlay = [.createOverlay "Jane Doe"] ∧
    fsRead (watermark_pdf sampleDate sampleFS inputPath "Jane Doe" outBase).fs outBase =
      some (.pdf ⟨sampleDoc.pages.map fun pg =>
        mergePage pg (create_pdf sampleDate "Jane Doe")⟩) :=
  overlay_once_per_call sampleDate sampleFS inputPath outBase "Jane Doe" sampleDoc rfl

/-- C4: when the input path does not exist, `main` raises the not-found
error with an empty trace (no recipient processed) and the filesystem
unchanged (zero output files created). -/
theorem missing_input_aborts (d : Date) (fs : FS) (args : Args)
    (h : fsRead fs args.input = none) :
    main d fs args = ⟨fs, some .fileNotFound, []⟩ := by
  simp [main, h]

/-- Witness for C4: on an empty filesystem, a run with names given still
fails with the not-found error, writes nothing and processes nobody. -/
theorem missing_input_aborts_witness :
    main sampleDate [] ⟨inputPath, outBase, some ["Jane Doe"], none⟩ =
      ⟨[], some .fileNotFound, []⟩ :=
  missing_input_aborts sampleDate [] ⟨inputPath, outBase, some ["Jane Doe"], none⟩ rfl

/-- C5: when neither `--names` nor `--name-file` is given, `main` leaves
the filesystem unchanged (no output file written), fails with some error,
and — whenever the input exists, so that the run reaches the recipient
check — that error is the no-recipients `ValueError`. -/
theorem no_names_error (d : Date) (fs : FS) (args : Args)
    (h1 : args.names = none) (h2 : args.name_file = none) :
    (main d fs args).fs = fs ∧ (main d fs args).err.isSome = true ∧
      ((fsRead fs args.input).isSome = true → (main d fs args).err = some .noNames) := by
  rcases hi : fsRead fs args.input with _ | file <;> simp [main, hi, h1, h2]

/-- Witness for C5: with the input present and no recipient source, the
concrete run reports the no-recipients error and leaves the filesystem as
it was. -/
theorem no_names_error_witness :
    (main sampleDate sampleFS ⟨inputPath, outBase, none, none⟩).fs = sampleFS ∧
    (main sampleDate sampleFS ⟨inputPath, outBase, none, none⟩).err = some .noNames :=
  ⟨(no_names_error sampleDate sampleFS ⟨inputPath, outBase, none, none⟩ rfl rfl).1,
    (no_names_error sampleDate sampleFS ⟨inputPath, outBase, none, none⟩ rfl rfl).2.2 rfl⟩

/-- C6: `write_paragraph` rotates the canvas by 30 degrees, draws the
paragraph at its anchor under that rotation, then rotates back by -30
degrees: the canvas's net rotation after the call equals what it was
before, so rotation never accumulates across blocks. -/
theorem write_paragraph_rotation (c : CanvasState) (text : String) (x y : ℚ)
    (fsz : Option ℚ) :
    (write_paragraph c text x y fsz).rot = c.rot ∧
    (write_paragraph c text x y fsz).items =
      c.items ++ [.par text x y (c.rot + _TILT_DEGREES) (inch * 4, inch * 4)
        (match fsz with
          | some s => { get_style with fontSize := s }
          | none => get_style)] := by
  cases fsz <;>
    simp [write_paragraph, CanvasState.rotate, CanvasState.drawOn]

/-- C7: a run with `--name-file` pointing at a file containing
`"Alice\nBob\n"` is identical (same resulting filesystem, same error
status, same trace) to a run with `--names Alice Bob`, for every
filesystem, input document and output base, on the same date. -/
theorem name_file_equiv (d : Date) (fs : FS) (input output nf : Path)
    (h : fsRead fs nf = some (.text "Alice\nBob\n")) :
    main d fs ⟨input, output, none, some nf⟩ =
      main d fs ⟨input, output, some ["Alice", "Bob"], none⟩ := by
  have hs : splitlines "Alice\nBob\n" = ["Alice", "Bob"] := rfl
  rcases hi : fsRead fs input with _ | file <;> simp [main, hi, h, hs]

/-- Witness for C7: the concrete filesystem holding `names.txt` with
`"Alice\nBob\n"` gives the very same run result either way. -/
theorem name_file_equiv_witness :
    main sampleDate sampleFS2 ⟨inputPath, outBase, none, some nfPath⟩ =
      main sampleDate sampleFS2 ⟨inputPath, outBase, some ["Alice", "Bob"], none⟩ :=
  name_file_equiv sampleDate sampleFS2 inputPath outBase nfPath rfl

/-- C8 counterexample: the claim predicts that a font-size override in one
`write_paragraph` call is toggled into subsequent draw calls.  Concretely:
draw a first block with override 99, then a second block with no override —
the second block is drawn at font size 14, not 99, because every call
obtains its style afresh via `get_style()`, which sets `fontSize` to 14. -/
theorem style_override_not_shared_cex :
    ((write_paragraph (write_paragraph Canvas.init "first block" 324 432 (some 99))
        "second block" 324 252 none).items.map itemFontSize) = [some 99, some 14] := by
  rfl

/-- C8 (amended): every `write_paragraph` call draws with the style freshly
produced by `get_style` — font size 14 unless that very call passes an
override, so an override is local to the call that requested it — and in
`create_pdf` none of the four draw calls overrides, so all four blocks of
one overlay are drawn at font size 14. -/
theorem style_override_local (c : CanvasState) (text : String) (x y : ℚ)
    (fsz : Option ℚ) :
    ((write_paragraph c text x y fsz).items.map itemFontSize) =
      c.items.map itemFontSize ++ [some (fsz.getD get_style.fontSize)] ∧
    ∀ (d : Date) (person : String),
      (create_pdf d person).content.map itemFontSize =
        [some 14, some 14, some 14, some 14] := by
  constructor
  · cases fsz <;>
      simp [write_paragraph, CanvasState.rotate, CanvasState.drawOn, itemFontSize]
  · intro d person
    rfl

/-- C9: when both `--names` and `--name-file` are given, the run is
identical to one with no name file at all — the name file's path and the
filesystem's content at it never influence the result — and, whenever the
input exists, the run processes exactly the command-line names. -/
theorem names_precedence (d : Date) (fs : FS) (input output : Path)
    (l : List String) (nf : Option Path) :
    main d fs ⟨input, output, some l, nf⟩ = main d fs ⟨input, output, some l, none⟩ ∧
    ((fsRead fs input).isSome = true →
      main d fs ⟨input, output, some l, nf⟩ = runPeople d input output fs l) := by
  rcases hi : fsRead fs input with _ | file <;> simp [main, hi]

/-- Witness for C9: with a name file given whose path does not even exist,
the run equals processing exactly the command-line names. -/
theorem names_precedence_witness :
    main sampleDate sampleFS ⟨inputPath, outBase, some ["Jane Doe"], some nfPath⟩ =
      runPeople sampleDate inputPath outBase sampleFS ["Jane Doe"] :=
  (names_precedence sampleDate sampleFS inputPath outBase ["Jane Doe"] (some nfPath)).2 rfl

/-- C10: an aborting `watermark_pdf` call (input missing or unreadable as a
PDF) leaves the filesystem unchanged — no output file is created — and on
success the trace opens the output only after the source pages were read
and the overlay was created. -/
theorem output_opened_last (d : Date) (fs : FS) (input out : Path) (person : String) :
    ((watermark_pdf d fs input person out).err.isSome = true →
      (watermark_pdf d fs input person out).fs = fs) ∧
    ∀ f : PdfFile, fsRead fs input = some (.pdf f) →
      (watermark_pdf d fs input person out).events =
        [.readPages f.pages.length, .createOverlay person]
          ++ (List.range f.pages.length).map Event.mergedPage
          ++ [.openOutput out] := by
  constructor
  · rcases hi : fsRead fs input with _ | file
    · simp [watermark_pdf, hi]
    · cases file <;> simp [watermark_pdf, hi, parsePdf]
  · intro f h
    rw [watermark_pdf_ok d fs input out person f h]

/-- Witness for C10: on the concrete two-page document the trace reads the
pages, creates the overlay, merges both pages, and opens the output last. -/
theorem output_opened_last_witness :
    (watermark_pdf sampleDate sampleFS inputPath "Jane Doe" outBase).events =
      [.readPages 2, .createOverlay "Jane Doe"]
        ++ (List.range 2).map Event.mergedPage
        ++ [.openOutput outBase] :=
  (output_opened_last sampleDate sampleFS inputPath outBase "Jane Doe").2 sampleDoc rfl

end Watermark
